import Mathlib

/-!
Shallow embedding of the consul-rust KV client (`src/kv.rs`) and proofs about it.

The embedding models:
* the wire record `KVResult` and the typed entry `KVPair<T>` (the `Rc<T>` value
  is modelled as a plain `T`; sharing is irrelevant to the properties proved);
* the decode adapter `impl<T> From<KVResult> for KVPair<T>`, which performs
  `base64::decode(..).unwrap()`, `std::str::from_utf8(..).unwrap()` and
  `serde_json::from_str(..).unwrap()`.  Each `.unwrap()` panics on failure, so
  the adapter is modelled as returning `Option (KVPair T)` with `none`
  standing for a panic;
* the five operations `get`, `put`, `delete`, `acquire`, `release` as pure
  request builders / response processors.  The HTTP transport is external to
  the crate, so an operation is modelled by the request value it hands to the
  transport (`Request`), and `get`'s response handling as a function of the
  transport's outcome (`RustOutcome`).

Machine integers (`u64`) are modelled as `Nat`: the code performs no
arithmetic on them (only `to_string`), so no overflow can occur.  Bytes
(`u8`) are modelled as `Nat` with explicit `< 256` bounds where relevant.
`serde_json` is external to the repository; the decode adapter is
parameterised by a deserialisation function `deser : String → Option T`
standing for `serde_json::from_str::<T>`.
-/

namespace ConsulKV

/-! ### Base64 (model of the `base64` crate, standard alphabet with padding) -/

/-- Character of the standard base64 alphabet at index `n < 64`. -/
def b64Char (n : Nat) : Char :=
  if n < 26 then Char.ofNat (65 + n)
  else if n < 52 then Char.ofNat (97 + (n - 26))
  else if n < 62 then Char.ofNat (48 + (n - 52))
  else if n = 62 then '+'
  else '/'

/-- Index of a character in the standard base64 alphabet, `none` if absent. -/
def b64Val (c : Char) : Option Nat :=
  if 'A' ≤ c ∧ c ≤ 'Z' then some (c.toNat - 65)
  else if 'a' ≤ c ∧ c ≤ 'z' then some (c.toNat - 97 + 26)
  else if '0' ≤ c ∧ c ≤ '9' then some (c.toNat - 48 + 52)
  else if c = '+' then some 62
  else if c = '/' then some 63
  else none

/-- Standard base64 encoding of a byte list (each byte `< 256`), with padding. -/
def base64EncodeList : List Nat → List Char
  | b1 :: b2 :: b3 :: rest =>
    let n := b1 * 65536 + b2 * 256 + b3
    b64Char (n / 262144) :: b64Char (n / 4096 % 64) :: b64Char (n / 64 % 64) ::
      b64Char (n % 64) :: base64EncodeList rest
  | [b1, b2] =>
    let n := b1 * 1024 + b2 * 4
    [b64Char (n / 4096), b64Char (n / 64 % 64), b64Char (n % 64), '=']
  | [b1] =>
    let n := b1 * 16
    [b64Char (n / 64), b64Char (n % 64), '=', '=']
  | [] => []

/-- Standard base64 decoding; rejects bad lengths, bad characters, bad padding
and non-zero trailing bits, as `base64::decode` does. -/
def base64DecodeList : List Char → Option (List Nat)
  | [] => some []
  | c1 :: c2 :: c3 :: c4 :: rest =>
    if c3 = '=' then
      if c4 = '=' ∧ rest = [] then
        match b64Val c1, b64Val c2 with
        | some v1, some v2 => if v2 % 16 = 0 then some [v1 * 4 + v2 / 16] else none
        | _, _ => none
      else none
    else if c4 = '=' then
      if rest = [] then
        match b64Val c1, b64Val c2, b64Val c3 with
        | some v1, some v2, some v3 =>
          if v3 % 4 = 0 then some [v1 * 4 + v2 / 16, v2 % 16 * 16 + v3 / 4] else none
        | _, _, _ => none
      else none
    else
      match b64Val c1, b64Val c2, b64Val c3, b64Val c4, base64DecodeList rest with
      | some v1, some v2, some v3, some v4, some bs =>
        some ((v1 * 4 + v2 / 16) :: (v2 % 16 * 16 + v3 / 4) :: (v3 % 4 * 64 + v4) :: bs)
      | _, _, _, _, _ => none
  | _ => none

/-- Model of `base64::decode` on a Rust `String`. -/
def base64Decode (s : String) : Option (List Nat) :=
  base64DecodeList s.data

/-- Model of `base64::encode` producing a Rust `String`. -/
def base64Encode (bs : List Nat) : String :=
  ⟨base64EncodeList bs⟩

/-! ### UTF-8 (model of `std::str::from_utf8` and of the bytes of a Rust string) -/

/-- UTF-8 encoding of a single unicode scalar value (Rust `char`). -/
def utf8EncodeChar (c : Char) : List Nat :=
  let n := c.toNat
  if n < 0x80 then [n]
  else if n < 0x800 then [0xC0 + n / 64, 0x80 + n % 64]
  else if n < 0x10000 then [0xE0 + n / 4096, 0x80 + n / 64 % 64, 0x80 + n % 64]
  else [0xF0 + n / 262144, 0x80 + n / 4096 % 64, 0x80 + n / 64 % 64, 0x80 + n % 64]

/-- One step of strict UTF-8 decoding, as `std::str::from_utf8` validates it:
given the first byte and the remaining bytes, return the decoded scalar value
and the bytes left over, or `none` on a stray continuation byte, a truncated
sequence, an overlong form, a surrogate, or a codepoint above `0x10FFFF`. -/
def utf8DecodeStep (b1 : Nat) (rest : List Nat) : Option (Char × List Nat) :=
  if b1 < 0x80 then some (Char.ofNat b1, rest)
  else if b1 < 0xC2 then none
  else if b1 < 0xE0 then
    match rest with
    | b2 :: rest2 =>
      if 0x80 ≤ b2 ∧ b2 < 0xC0 then
        some (Char.ofNat ((b1 - 0xC0) * 64 + (b2 - 0x80)), rest2)
      else none
    | [] => none
  else if b1 < 0xF0 then
    match rest with
    | b2 :: b3 :: rest3 =>
      if 0x80 ≤ b2 ∧ b2 < 0xC0 ∧ 0x80 ≤ b3 ∧ b3 < 0xC0 then
        let n := (b1 - 0xE0) * 4096 + (b2 - 0x80) * 64 + (b3 - 0x80)
        if 0x800 ≤ n ∧ (n < 0xD800 ∨ 0xE000 ≤ n) then
          some (Char.ofNat n, rest3)
        else none
      else none
    | _ => none
  else if b1 < 0xF5 then
    match rest with
    | b2 :: b3 :: b4 :: rest4 =>
      if 0x80 ≤ b2 ∧ b2 < 0xC0 ∧ 0x80 ≤ b3 ∧ b3 < 0xC0 ∧ 0x80 ≤ b4 ∧ b4 < 0xC0 then
        let n := (b1 - 0xF0) * 262144 + (b2 - 0x80) * 4096 + (b3 - 0x80) * 64 + (b4 - 0x80)
        if 0x10000 ≤ n ∧ n < 0x110000 then
          some (Char.ofNat n, rest4)
        else none
      else none
    | _ => none
  else none

/-- Decoding loop: applies `utf8DecodeStep` until the input is exhausted.
The fuel only bounds the recursion; each step consumes at least one byte, so
fuel equal to the length of the input (as used by `utf8DecodeList`) never
runs out. -/
def utf8DecodeLoop : Nat → List Nat → Option (List Char)
  | _, [] => some []
  | 0, _ :: _ => none
  | fuel + 1, b1 :: rest =>
    match utf8DecodeStep b1 rest with
    | some (c, rest2) => (utf8DecodeLoop fuel rest2).map (fun cs => c :: cs)
    | none => none

/-- Strict UTF-8 decoding of a byte list (model of `std::str::from_utf8`'s
validation plus reading the string back). -/
def utf8DecodeList (l : List Nat) : Option (List Char) :=
  utf8DecodeLoop l.length l

/-- UTF-8 bytes of a Rust `String` (Rust strings are stored as UTF-8). -/
def utf8Encode (s : String) : List Nat :=
  s.data.flatMap utf8EncodeChar

/-- Model of `std::str::from_utf8`: `none` on invalid UTF-8. -/
def utf8Decode (bs : List Nat) : Option String :=
  (utf8DecodeList bs).map String.mk

/-! ### Data model (`KVResult`, `KVPair<T>`) -/

/-- Wire record, `struct KVResult` of `src/kv.rs`.  `u64` fields are `Nat`. -/
structure KVResult where
  Key : String
  CreateIndex : Option Nat
  ModifyIndex : Option Nat
  LockIndex : Option Nat
  Flags : Option Nat
  Value : String
  Session : Option String
deriving DecidableEq, Repr

/-- Typed entry, `struct KVPair<T>` of `src/kv.rs`.  The `Rc<T>` value is
modelled as a plain `T`. -/
structure KVPair (T : Type) where
  Key : String
  CreateIndex : Option Nat
  ModifyIndex : Option Nat
  LockIndex : Option Nat
  Flags : Option Nat
  Value : T
  Session : Option String
deriving DecidableEq

/-- Decode adapter, `impl<T> From<KVResult> for KVPair<T>`.  The source runs
`base64::decode(&result.Value).unwrap()`, then
`std::str::from_utf8(&bytes).unwrap()`, then
`serde_json::from_str(&decoded).unwrap()`; each `.unwrap()` panics on failure,
modelled here as `none`.  `deser` stands for `serde_json::from_str::<T>`. -/
def kvPairFromResult {T : Type} (deser : String → Option T) (result : KVResult) :
    Option (KVPair T) :=
  match base64Decode result.Value with
  | none => none
  | some bytes =>
    match utf8Decode bytes with
    | none => none
    | some decoded =>
      match deser decoded with
      | none => none
      | some value =>
        some { Key := result.Key, CreateIndex := result.CreateIndex,
               ModifyIndex := result.ModifyIndex, LockIndex := result.LockIndex,
               Flags := result.Flags, Value := value, Session := result.Session }

/-! ### Requests and operations -/

/-- HTTP method of a request issued by the client. -/
inductive Method where
  | get
  | put
  | delete
deriving DecidableEq, Repr

/-- The request an operation hands to the external transport: method, path,
query parameters (the `HashMap` of the source, as an association list with
distinct keys) and optional typed payload. -/
structure Request (T : Type) where
  method : Method
  path : String
  params : List (String × String)
  body : Option T
deriving DecidableEq

/-- Outcome of a Rust computation as observed by the caller: a returned
`Ok`, a returned `Err`, or a panic (`.unwrap()` on a failed `Result`). -/
inductive RustOutcome (α : Type) where
  | ok (a : α)
  | err (msg : String)
  | panicked
deriving DecidableEq

/-- `KV::acquire for Client`: builds the `flags` parameter exactly when
`Flags` is `Some(i)` with `i != 0`, then requires `Session`; with a session
it issues one PUT to `/v1/kv/<Key>` with `acquire=<session>` and the entry's
value as payload, otherwise it returns an error without issuing any request. -/
def kvAcquire {T : Type} (pair : KVPair T) : Except String (Request T) :=
  let params : List (String × String) :=
    match pair.Flags with
    | some i => if i ≠ 0 then [("flags", toString i)] else []
    | none => []
  match pair.Session with
  | some session =>
    Except.ok { method := Method.put, path := "/v1/kv/" ++ pair.Key,
                params := params ++ [("acquire", session)], body := some pair.Value }
  | none => Except.error "Session flag is required to acquire lock"

/-- `KV::release for Client`: same shape as `kvAcquire` with parameter
`release` and its own error message. -/
def kvRelease {T : Type} (pair : KVPair T) : Except String (Request T) :=
  let params : List (String × String) :=
    match pair.Flags with
    | some i => if i ≠ 0 then [("flags", toString i)] else []
    | none => []
  match pair.Session with
  | some session =>
    Except.ok { method := Method.put, path := "/v1/kv/" ++ pair.Key,
                params := params ++ [("release", session)], body := some pair.Value }
  | none => Except.error "Session flag is required to release a lock"

/-- `KV::put for Client`: one PUT to `/v1/kv/<Key>` with the `flags`
parameter exactly when `Flags` is `Some(i)` with `i != 0`, payload the
entry's value.  No local failure. -/
def kvPut {T : Type} (pair : KVPair T) : Request T :=
  let params : List (String × String) :=
    match pair.Flags with
    | some i => if i ≠ 0 then [("flags", toString i)] else []
    | none => []
  { method := Method.put, path := "/v1/kv/" ++ pair.Key,
    params := params, body := some pair.Value }

/-- `KV::delete for Client`: one DELETE to `/v1/kv/<key>`, no parameters. -/
def kvDeleteRequest (key : String) : Request Unit :=
  { method := Method.delete, path := "/v1/kv/" ++ key,
    params := [], body := none }

/-- The request side of `KV::get for Client`: one GET to `/v1/kv/<key>`,
no parameters. -/
def kvGetRequest (key : String) : Request Unit :=
  { method := Method.get, path := "/v1/kv/" ++ key,
    params := [], body := none }

/-- The response side of `KV::get for Client`: given the transport's outcome
(a list of wire records plus response metadata `M`, or an error), take the
first record (`results.first()`), decode it (`.into()`, which panics on decode
failure), and pair the optional decoded entry with the metadata.  A transport
error is propagated unchanged by `response.map`. -/
def kvGet {T M : Type} (deser : String → Option T)
    (response : RustOutcome (List KVResult × M)) :
    RustOutcome (Option (KVPair T) × M) :=
  match response with
  | RustOutcome.err e => RustOutcome.err e
  | RustOutcome.panicked => RustOutcome.panicked
  | RustOutcome.ok (results, meta) =>
    match results.head? with
    | none => RustOutcome.ok (none, meta)
    | some r =>
      match kvPairFromResult deser r with
      | none => RustOutcome.panicked
      | some p => RustOutcome.ok (some p, meta)

/-- `true` exactly on a returned `Err`. -/
def isErrOutcome {α : Type} : RustOutcome α → Bool
  | RustOutcome.err _ => true
  | _ => false

/-! ### Concrete sample data used by witnesses and counterexamples -/

/-- Sample deserialiser used by witnesses, standing for
`serde_json::from_str::<u64>`: accepts a non-empty all-digit string and
returns the number it denotes. -/
def jsonNatDeser (s : String) : Option Nat :=
  match s.data with
  | [] => none
  | l =>
    if l.all Char.isDigit then
      some (l.foldl (fun n c => n * 10 + (c.toNat - 48)) 0)
    else none

/-- Sample serialiser used by witnesses, standing for
`serde_json::to_string::<u64>`. -/
def jsonNatSer (v : Nat) : String :=
  toString v

/-- An entry with no session, for the acquire/release precondition. -/
def pairNoSession : KVPair Nat :=
  { Key := "lock/a", CreateIndex := none, ModifyIndex := none, LockIndex := none,
    Flags := none, Value := 7, Session := none }

/-- An entry holding session "S1" and non-zero flags. -/
def pairWithSession : KVPair Nat :=
  { Key := "lock/a", CreateIndex := none, ModifyIndex := none, LockIndex := none,
    Flags := some 5, Value := 7, Session := some "S1" }

/-- A wire record whose `Value` "Nw==" is the base64 of the UTF-8 of "7",
which deserialises (as JSON) to the number 7. -/
def sampleRecord : KVResult :=
  { Key := "sample", CreateIndex := some 1, ModifyIndex := some 2, LockIndex := some 0,
    Flags := some 5, Value := "Nw==", Session := some "S1" }

/-- The typed entry `sampleRecord` decodes to. -/
def samplePair : KVPair Nat :=
  { Key := "sample", CreateIndex := some 1, ModifyIndex := some 2, LockIndex := some 0,
    Flags := some 5, Value := 7, Session := some "S1" }

/-- A wire record whose `Value` "!!!!" is not valid base64. -/
def badRecord : KVResult :=
  { Key := "bad", CreateIndex := none, ModifyIndex := none, LockIndex := none,
    Flags := none, Value := "!!!!", Session := none }

/-- A wire record with an empty `Value`. -/
def emptyValueRecord : KVResult :=
  { Key := "empty", CreateIndex := none, ModifyIndex := none, LockIndex := none,
    Flags := none, Value := "", Session := none }

/-- Query parameters of a successfully built request; `[]` when the operation
failed locally (no request was issued, so no parameters exist). -/
def okParams {T : Type} : Except String (Request T) → List (String × String)
  | Except.ok r => r.params
  | Except.error _ => []

/-! ### Roundtrip lemmas for the wire encoding -/

theorem b64Val_b64Char : ∀ n < 64, b64Val (b64Char n) = some n := by decide

theorem b64Char_ne_pad : ∀ n < 64, b64Char n ≠ '=' := by decide

theorem base64_decode_encode (bs : List Nat) (h : ∀ b ∈ bs, b < 256) :
    base64DecodeList (base64EncodeList bs) = some bs := by
  induction bs using base64EncodeList.induct with
  | case1 b1 b2 b3 rest ih =>
    have hb1 : b1 < 256 := h b1 (by simp)
    have hb2 : b2 < 256 := h b2 (by simp)
    have hb3 : b3 < 256 := h b3 (by simp)
    have ih2 := ih (fun b hb => h b (by simp [hb]))
    simp only [base64EncodeList]
    rw [base64DecodeList]
    rw [if_neg (b64Char_ne_pad _ (by omega)), if_neg (b64Char_ne_pad _ (by omega))]
    rw [b64Val_b64Char _ (by omega), b64Val_b64Char _ (by omega),
        b64Val_b64Char _ (by omega), b64Val_b64Char _ (by omega), ih2]
    simp only [Option.some.injEq, List.cons.injEq]
    refine ⟨by omega, by omega, by omega, trivial⟩
  | case2 b1 b2 =>
    have hb1 : b1 < 256 := h b1 (by simp)
    have hb2 : b2 < 256 := h b2 (by simp)
    simp only [base64EncodeList]
    rw [base64DecodeList]
    rw [if_neg (b64Char_ne_pad _ (by omega)), if_pos rfl, if_pos rfl]
    rw [b64Val_b64Char _ (by omega), b64Val_b64Char _ (by omega),
        b64Val_b64Char _ (by omega)]
    have hc : (b1 * 1024 + b2 * 4) % 64 % 4 = 0 := by omega
    simp only [hc, reduceIte, Option.some.injEq, List.cons.injEq]
    refine ⟨by omega, by omega, trivial⟩
  | case3 b1 =>
    have hb1 : b1 < 256 := h b1 (by simp)
    simp only [base64EncodeList]
    rw [base64DecodeList]
    rw [if_pos rfl, if_pos ⟨rfl, rfl⟩]
    rw [b64Val_b64Char _ (by omega), b64Val_b64Char _ (by omega)]
    have hc : b1 * 16 % 64 % 16 = 0 := by omega
    simp only [hc, reduceIte, Option.some.injEq, List.cons.injEq]
    refine ⟨by omega, trivial⟩
  | case4 => rfl

theorem char_toNat_valid (c : Char) :
    c.toNat < 0xD800 ∨ (0xDFFF < c.toNat ∧ c.toNat < 0x110000) := c.valid

theorem utf8DecodeStep_one (b1 : Nat) (rest : List Nat) (h : b1 < 0x80) :
    utf8DecodeStep b1 rest = some (Char.ofNat b1, rest) := by
  unfold utf8DecodeStep
  rw [if_pos h]

theorem utf8DecodeStep_two (b1 b2 : Nat) (bs : List Nat) (h1 : 0xC2 ≤ b1) (h2 : b1 < 0xE0)
    (h3 : 0x80 ≤ b2) (h4 : b2 < 0xC0) :
    utf8DecodeStep b1 (b2 :: bs) = some (Char.ofNat ((b1 - 0xC0) * 64 + (b2 - 0x80)), bs) := by
  unfold utf8DecodeStep
  rw [if_neg (by omega), if_neg (by omega), if_pos (by omega)]
  show (if 0x80 ≤ b2 ∧ b2 < 0xC0 then
      some (Char.ofNat ((b1 - 0xC0) * 64 + (b2 - 0x80)), bs) else none) = _
  rw [if_pos ⟨h3, h4⟩]

theorem utf8DecodeStep_three (b1 b2 b3 : Nat) (bs : List Nat) (h1 : 0xE0 ≤ b1) (h2 : b1 < 0xF0)
    (h3 : 0x80 ≤ b2) (h4 : b2 < 0xC0) (h5 : 0x80 ≤ b3) (h6 : b3 < 0xC0)
    (h7 : 0x800 ≤ (b1 - 0xE0) * 4096 + (b2 - 0x80) * 64 + (b3 - 0x80))
    (h8 : (b1 - 0xE0) * 4096 + (b2 - 0x80) * 64 + (b3 - 0x80) < 0xD800 ∨
          0xE000 ≤ (b1 - 0xE0) * 4096 + (b2 - 0x80) * 64 + (b3 - 0x80)) :
    utf8DecodeStep b1 (b2 :: b3 :: bs) =
      some (Char.ofNat ((b1 - 0xE0) * 4096 + (b2 - 0x80) * 64 + (b3 - 0x80)), bs) := by
  unfold utf8DecodeStep
  rw [if_neg (by omega), if_neg (by omega), if_neg (by omega), if_pos (by omega)]
  show (if 0x80 ≤ b2 ∧ b2 < 0xC0 ∧ 0x80 ≤ b3 ∧ b3 < 0xC0 then
      if 0x800 ≤ (b1 - 0xE0) * 4096 + (b2 - 0x80) * 64 + (b3 - 0x80) ∧
          ((b1 - 0xE0) * 4096 + (b2 - 0x80) * 64 + (b3 - 0x80) < 0xD800 ∨
            0xE000 ≤ (b1 - 0xE0) * 4096 + (b2 - 0x80) * 64 + (b3 - 0x80)) then
        some (Char.ofNat ((b1 - 0xE0) * 4096 + (b2 - 0x80) * 64 + (b3 - 0x80)), bs)
      else none
    else none) = _
  rw [if_pos ⟨h3, h4, h5, h6⟩, if_pos ⟨h7, h8⟩]

theorem utf8DecodeStep_four (b1 b2 b3 b4 : Nat) (bs : List Nat) (h1 : 0xF0 ≤ b1) (h2 : b1 < 0xF5)
    (h3 : 0x80 ≤ b2) (h4 : b2 < 0xC0) (h5 : 0x80 ≤ b3) (h6 : b3 < 0xC0)
    (h7 : 0x80 ≤ b4) (h8 : b4 < 0xC0)
    (h9 : 0x10000 ≤ (b1 - 0xF0) * 262144 + (b2 - 0x80) * 4096 + (b3 - 0x80) * 64 + (b4 - 0x80))
    (h10 : (b1 - 0xF0) * 262144 + (b2 - 0x80) * 4096 + (b3 - 0x80) * 64 + (b4 - 0x80) <
      0x110000) :
    utf8DecodeStep b1 (b2 :: b3 :: b4 :: bs) =
      some
        (Char.ofNat ((b1 - 0xF0) * 262144 + (b2 - 0x80) * 4096 + (b3 - 0x80) * 64 + (b4 - 0x80)),
        bs) := by
  unfold utf8DecodeStep
  rw [if_neg (by omega), if_neg (by omega), if_neg (by omega), if_neg (by omega),
      if_pos (by omega)]
  show (if 0x80 ≤ b2 ∧ b2 < 0xC0 ∧ 0x80 ≤ b3 ∧ b3 < 0xC0 ∧ 0x80 ≤ b4 ∧ b4 < 0xC0 then
      if 0x10000 ≤ (b1 - 0xF0) * 262144 + (b2 - 0x80) * 4096 + (b3 - 0x80) * 64 + (b4 - 0x80) ∧
          (b1 - 0xF0) * 262144 + (b2 - 0x80) * 4096 + (b3 - 0x80) * 64 + (b4 - 0x80) <
            0x110000 then
        some (Char.ofNat
          ((b1 - 0xF0) * 262144 + (b2 - 0x80) * 4096 + (b3 - 0x80) * 64 + (b4 - 0x80)), bs)
      else none
    else none) = _
  rw [if_pos ⟨h3, h4, h5, h6, h7, h8⟩, if_pos ⟨h9, h10⟩]

theorem utf8DecodeStep_length {b1 : Nat} {rest rest2 : List Nat} {c : Char}
    (h : utf8DecodeStep b1 rest = some (c, rest2)) : rest2.length ≤ rest.length := by
  unfold utf8DecodeStep at h
  repeat' split at h
  all_goals simp_all
  all_goals omega

theorem utf8DecodeLoop_cons (fuel b1 : Nat) (rest rest2 : List Nat) (c : Char)
    (h : utf8DecodeStep b1 rest = some (c, rest2)) :
    utf8DecodeLoop (fuel + 1) (b1 :: rest) =
      (utf8DecodeLoop fuel rest2).map (fun cs => c :: cs) := by
  simp only [utf8DecodeLoop]
  rw [h]

theorem utf8DecodeLoop_fuel (fuel fuel2 : Nat) (l : List Nat)
    (hf : l.length ≤ fuel) (hf2 : l.length ≤ fuel2) :
    utf8DecodeLoop fuel l = utf8DecodeLoop fuel2 l := by
  induction fuel generalizing fuel2 l with
  | zero =>
    cases l with
    | nil => cases fuel2 <;> rfl
    | cons b1 rest => simp at hf
  | succ f ih =>
    cases l with
    | nil => cases fuel2 <;> rfl
    | cons b1 rest =>
      cases fuel2 with
      | zero => simp at hf2
      | succ f2 =>
        simp only [utf8DecodeLoop]
        cases hstep : utf8DecodeStep b1 rest with
        | none => rfl
        | some pr =>
          obtain ⟨c, rest2⟩ := pr
          show (utf8DecodeLoop f rest2).map (fun cs => c :: cs) =
            (utf8DecodeLoop f2 rest2).map (fun cs => c :: cs)
          have hl := utf8DecodeStep_length hstep
          simp only [List.length_cons] at hf hf2
          rw [ih f2 rest2 (by omega) (by omega)]

theorem utf8DecodeList_cons_of_step (b1 : Nat) (rest rest2 : List Nat) (c : Char)
    (h : utf8DecodeStep b1 rest = some (c, rest2)) :
    utf8DecodeList (b1 :: rest) = (utf8DecodeList rest2).map (fun cs => c :: cs) := by
  have hlen := utf8DecodeStep_length h
  simp only [utf8DecodeList, List.length_cons]
  rw [utf8DecodeLoop_cons _ _ _ _ _ h]
  rw [utf8DecodeLoop_fuel rest.length rest2.length rest2 hlen le_rfl]

theorem utf8_decode_encode_cons (c : Char) (bs : List Nat) :
    utf8DecodeList (utf8EncodeChar c ++ bs) = (utf8DecodeList bs).map (fun cs => c :: cs) := by
  have hv := char_toNat_valid c
  have hofNat := Char.ofNat_toNat c
  by_cases h1 : c.toNat < 0x80
  · have he : utf8EncodeChar c = [c.toNat] := by simp [utf8EncodeChar, h1]
    rw [he, List.singleton_append]
    have hstep := utf8DecodeStep_one c.toNat bs h1
    rw [hofNat] at hstep
    exact utf8DecodeList_cons_of_step _ _ _ _ hstep
  · by_cases h2 : c.toNat < 0x800
    · have he : utf8EncodeChar c = [0xC0 + c.toNat / 64, 0x80 + c.toNat % 64] := by
        simp [utf8EncodeChar, h1, h2]
      rw [he, List.cons_append, List.singleton_append]
      have hstep := utf8DecodeStep_two (0xC0 + c.toNat / 64) (0x80 + c.toNat % 64) bs
        (by omega) (by omega) (by omega) (by omega)
      have harith : (0xC0 + c.toNat / 64 - 0xC0) * 64 + (0x80 + c.toNat % 64 - 0x80) =
          c.toNat := by omega
      rw [harith, hofNat] at hstep
      exact utf8DecodeList_cons_of_step _ _ _ _ hstep
    · by_cases h3 : c.toNat < 0x10000
      · have he : utf8EncodeChar c =
            [0xE0 + c.toNat / 4096, 0x80 + c.toNat / 64 % 64, 0x80 + c.toNat % 64] := by
          simp [utf8EncodeChar, h1, h2, h3]
        rw [he, List.cons_append, List.cons_append, List.singleton_append]
        have hstep := utf8DecodeStep_three (0xE0 + c.toNat / 4096) (0x80 + c.toNat / 64 % 64)
          (0x80 + c.toNat % 64) bs (by omega) (by omega) (by omega) (by omega) (by omega)
          (by omega) (by omega) (by omega)
        have harith : (0xE0 + c.toNat / 4096 - 0xE0) * 4096 +
            (0x80 + c.toNat / 64 % 64 - 0x80) * 64 + (0x80 + c.toNat % 64 - 0x80) =
            c.toNat := by omega
        rw [harith, hofNat] at hstep
        exact utf8DecodeList_cons_of_step _ _ _ _ hstep
      · have h4 : c.toNat < 0x110000 := by omega
        have he : utf8EncodeChar c =
            [0xF0 + c.toNat / 262144, 0x80 + c.toNat / 4096 % 64, 0x80 + c.toNat / 64 % 64,
              0x80 + c.toNat % 64] := by
          simp [utf8EncodeChar, h1, h2, h3]
        rw [he, List.cons_append, List.cons_append, List.cons_append, List.singleton_append]
        have hstep := utf8DecodeStep_four (0xF0 + c.toNat / 262144) (0x80 + c.toNat / 4096 % 64)
          (0x80 + c.toNat / 64 % 64) (0x80 + c.toNat % 64) bs (by omega) (by omega) (by omega)
          (by omega) (by omega) (by omega) (by omega) (by omega) (by omega) (by omega)
        have harith : (0xF0 + c.toNat / 262144 - 0xF0) * 262144 +
            (0x80 + c.toNat / 4096 % 64 - 0x80) * 4096 +
            (0x80 + c.toNat / 64 % 64 - 0x80) * 64 + (0x80 + c.toNat % 64 - 0x80) =
            c.toNat := by omega
        rw [harith, hofNat] at hstep
        exact utf8DecodeList_cons_of_step _ _ _ _ hstep

theorem utf8_decode_encode (cs : List Char) :
    utf8DecodeList (cs.flatMap utf8EncodeChar) = some cs := by
  induction cs with
  | nil => rfl
  | cons c cs ih =>
    rw [List.flatMap_cons, utf8_decode_encode_cons, ih]
    rfl

theorem utf8_decode_encode_string (s : String) : utf8Decode (utf8Encode s) = some s := by
  unfold utf8Decode utf8Encode
  rw [utf8_decode_encode]
  rfl

theorem utf8EncodeChar_lt (c : Char) : ∀ b ∈ utf8EncodeChar c, b < 256 := by
  have hv := char_toNat_valid c
  intro b hb
  by_cases h1 : c.toNat < 0x80
  · simp [utf8EncodeChar, h1] at hb
    omega
  · by_cases h2 : c.toNat < 0x800
    · simp [utf8EncodeChar, h1, h2] at hb
      omega
    · by_cases h3 : c.toNat < 0x10000
      · simp [utf8EncodeChar, h1, h2, h3] at hb
        omega
      · simp [utf8EncodeChar, h1, h2, h3] at hb
        omega

theorem utf8Encode_lt (s : String) : ∀ b ∈ utf8Encode s, b < 256 := by
  intro b hb
  unfold utf8Encode at hb
  rw [List.mem_flatMap] at hb
  obtain ⟨c, _, hbc⟩ := hb
  exact utf8EncodeChar_lt c b hbc

/-! ### Claim theorems -/

/-- Claim C1, counterexample: with no session, acquire and release do fail
immediately, but the error messages are "Session flag is required to acquire
lock" / "Session flag is required to release a lock", not the claim's quoted
"session required to acquire lock" / "session required to release lock". -/
theorem c1_message_counterexample :
    kvAcquire pairNoSession = Except.error "Session flag is required to acquire lock" ∧
    ¬ kvAcquire pairNoSession = Except.error "session required to acquire lock" ∧
    kvRelease pairNoSession = Except.error "Session flag is required to release a lock" ∧
    ¬ kvRelease pairNoSession = Except.error "session required to release lock" := by
  refine ⟨rfl, fun h => ?_, rfl, fun h => ?_⟩ <;>
    exact absurd (Except.error.inj h) (by decide)

/-- Claim C1 (amended): for every entry with `Session = none`, acquire and
release fail immediately with the configuration errors "Session flag is
required to acquire lock" / "Session flag is required to release a lock" and
no request is issued; for every entry with a session set, the check passes
and a request is issued. -/
theorem c1_session_precondition {T : Type} (pair : KVPair T) :
    (pair.Session = none →
      kvAcquire pair = Except.error "Session flag is required to acquire lock" ∧
      kvRelease pair = Except.error "Session flag is required to release a lock") ∧
    (∀ s, pair.Session = some s →
      (∃ req, kvAcquire pair = Except.ok req) ∧ (∃ req, kvRelease pair = Except.ok req)) := by
  constructor
  · intro h
    constructor
    · simp [kvAcquire, h]
    · simp [kvRelease, h]
  · intro s h
    constructor
    · simp [kvAcquire, h]
    · simp [kvRelease, h]

/-- Claim C1 witness: concrete entries exercising both sides. -/
theorem c1_session_precondition_witness :
    kvAcquire pairNoSession = Except.error "Session flag is required to acquire lock" ∧
    (∃ req, kvAcquire pairWithSession = Except.ok req) :=
  ⟨((c1_session_precondition pairNoSession).1 rfl).1,
   ((c1_session_precondition pairWithSession).2 "S1" rfl).1⟩

/-- Claim C2, counterexample: a record whose `Value` is not valid base64 makes
`get` panic (the `.unwrap()` in the decode adapter), not return an error to
the caller. -/
theorem c2_panic_counterexample :
    kvGet jsonNatDeser (RustOutcome.ok ([badRecord], (0 : Nat))) = RustOutcome.panicked ∧
    isErrOutcome (kvGet jsonNatDeser (RustOutcome.ok ([badRecord], (0 : Nat)))) = false := by
  exact ⟨rfl, rfl⟩

/-- Claim C2 (amended): for every wire record whose `Value` is not valid
base64, or whose decoded bytes are not valid UTF-8, or whose decoded text the
deserialiser rejects, the decode adapter panics (models the `.unwrap()`
calls), and the enclosing `get` call panics rather than succeeding or
returning an error. -/
theorem c2_decode_failure_panics {T M : Type} (deser : String → Option T) (r : KVResult)
    (meta : M)
    (h : base64Decode r.Value = none ∨
      (∃ bytes, base64Decode r.Value = some bytes ∧ utf8Decode bytes = none) ∨
      (∃ bytes decoded, base64Decode r.Value = some bytes ∧ utf8Decode bytes = some decoded ∧
        deser decoded = none)) :
    kvPairFromResult deser r = none ∧
    kvGet deser (RustOutcome.ok ([r], meta)) = RustOutcome.panicked := by
  have hnone : kvPairFromResult deser r = none := by
    rcases h with h | ⟨bs, h1, h2⟩ | ⟨bs, d, h1, h2, h3⟩ <;>
      simp [kvPairFromResult, *]
  exact ⟨hnone, by simp [kvGet, hnone]⟩

/-- Claim C2 witness: the invalid-base64 record makes the adapter panic. -/
theorem c2_decode_failure_panics_witness :
    kvPairFromResult jsonNatDeser badRecord = none ∧
    kvGet jsonNatDeser (RustOutcome.ok ([badRecord], (0 : Nat))) = RustOutcome.panicked :=
  c2_decode_failure_panics jsonNatDeser badRecord 0 (Or.inl rfl)

/-- Claim C3: put, acquire and release requests carry `flags=<n>` exactly when
`Flags` is present and non-zero; `Flags = some 0` and `Flags = none` build
identical requests; `Flags = some 5` yields `flags=5`. -/
theorem c3_flags_param {T : Type} (pair : KVPair T) (s : String)
    (hs : pair.Session = some s) :
    (∀ v, ("flags", v) ∈ (kvPut pair).params ↔
      ∃ n, pair.Flags = some n ∧ n ≠ 0 ∧ v = toString n) ∧
    (∀ v, ("flags", v) ∈ okParams (kvAcquire pair) ↔
      ∃ n, pair.Flags = some n ∧ n ≠ 0 ∧ v = toString n) ∧
    (∀ v, ("flags", v) ∈ okParams (kvRelease pair) ↔
      ∃ n, pair.Flags = some n ∧ n ≠ 0 ∧ v = toString n) ∧
    kvPut { pair with Flags := some 0 } = kvPut { pair with Flags := none } ∧
    kvAcquire { pair with Flags := some 0 } = kvAcquire { pair with Flags := none } ∧
    kvRelease { pair with Flags := some 0 } = kvRelease { pair with Flags := none } ∧
    ("flags", "5") ∈ (kvPut { pair with Flags := some 5 }).params := by
  refine ⟨?_, ?_, ?_, ?_, ?_, ?_, ?_⟩
  · intro v
    cases hf : pair.Flags with
    | none => simp [kvPut, hf]
    | some n =>
      by_cases hn : n = 0
      · subst hn; simp [kvPut, hf]
      · simp [kvPut, hf, hn]
  · intro v
    cases hf : pair.Flags with
    | none => simp [kvAcquire, okParams, hf, hs]
    | some n =>
      by_cases hn : n = 0
      · subst hn; simp [kvAcquire, okParams, hf, hs]
      · simp [kvAcquire, okParams, hf, hs, hn]
  · intro v
    cases hf : pair.Flags with
    | none => simp [kvRelease, okParams, hf, hs]
    | some n =>
      by_cases hn : n = 0
      · subst hn; simp [kvRelease, okParams, hf, hs]
      · simp [kvRelease, okParams, hf, hs, hn]
  · simp [kvPut]
  · simp [kvAcquire]
  · simp [kvRelease]
  · simp [kvPut]
    decide

/-- Claim C3 witness: a concrete entry with session "S1". -/
theorem c3_flags_param_witness :
    ("flags", "5") ∈ (kvPut { pairWithSession with Flags := some 5 }).params :=
  (c3_flags_param pairWithSession "S1" rfl).2.2.2.2.2.2

/-- Claim C4: an empty response list makes `get` return `Ok` with an absent
entry and the response metadata; no error is raised. -/
theorem c4_empty_response_absent {T M : Type} (deser : String → Option T) (meta : M) :
    kvGet deser (RustOutcome.ok ([], meta)) = RustOutcome.ok (none, meta) := rfl

/-- Claim C6: with more than one record in the response, `get` uses only the
first: the result equals the result on the first record alone, and when the
first record decodes to `p` the result is `Ok (some p, meta)`. -/
theorem c6_first_record_only {T M : Type} (deser : String → Option T) (r : KVResult)
    (rest : List KVResult) (meta : M) (p : KVPair T)
    (h : kvPairFromResult deser r = some p) :
    kvGet deser (RustOutcome.ok (r :: rest, meta)) = RustOutcome.ok (some p, meta) ∧
    kvGet deser (RustOutcome.ok (r :: rest, meta)) =
      kvGet deser (RustOutcome.ok ([r], meta)) := by
  constructor <;> simp [kvGet, h]

/-- Claim C6 witness: a decodable record followed by a second record that is
discarded. -/
theorem c6_first_record_only_witness :
    kvGet jsonNatDeser (RustOutcome.ok ([sampleRecord, badRecord], (0 : Nat))) =
      RustOutcome.ok (some samplePair, (0 : Nat)) :=
  (c6_first_record_only jsonNatDeser sampleRecord [badRecord] 0 samplePair (by decide)).1

/-- Claim C7: with `Session = some s`, acquire issues exactly one PUT request
to `/v1/kv/<Key>` whose parameters are the `flags` parameter (present exactly
when `Flags` is non-zero) plus `acquire=<s>` and nothing else, with the
entry's value as payload. -/
theorem c7_acquire_request_shape {T : Type} (pair : KVPair T) (s : String)
    (hs : pair.Session = some s) :
    kvAcquire pair = Except.ok
      { method := Method.put, path := "/v1/kv/" ++ pair.Key,
        params := (match pair.Flags with
          | some n => if n ≠ 0 then [("flags", toString n)] else []
          | none => []) ++ [("acquire", s)],
        body := some pair.Value } := by
  simp [kvAcquire, hs]

/-- Claim C7 witness: the concrete entry with session "S1" and flags 5. -/
theorem c7_acquire_request_shape_witness :
    kvAcquire pairWithSession = Except.ok
      { method := Method.put, path := "/v1/kv/" ++ pairWithSession.Key,
        params := (match pairWithSession.Flags with
          | some n => if n ≠ 0 then [("flags", toString n)] else []
          | none => []) ++ [("acquire", "S1")],
        body := some pairWithSession.Value } :=
  c7_acquire_request_shape pairWithSession "S1" rfl

/-- Claim C8: an empty `Value` is still decoded in full: empty base64 decodes
to zero bytes, zero bytes decode to the empty string, and then the
deserialiser decides the outcome — if it rejects the empty payload the
adapter fails (panics), and if it accepts, its value (never a substituted
default) is used. -/
theorem c8_empty_value_decode {T : Type} (deser : String → Option T) (r : KVResult)
    (hv : r.Value = "") :
    base64Decode r.Value = some [] ∧
    utf8Decode [] = some "" ∧
    (deser "" = none → kvPairFromResult deser r = none) ∧
    (∀ v, deser "" = some v → kvPairFromResult deser r =
      some { Key := r.Key, CreateIndex := r.CreateIndex, ModifyIndex := r.ModifyIndex,
             LockIndex := r.LockIndex, Flags := r.Flags, Value := v,
             Session := r.Session }) := by
  have hb : base64Decode r.Value = some [] := by rw [hv]; rfl
  have hu : utf8Decode ([] : List Nat) = some "" := rfl
  refine ⟨hb, hu, ?_, ?_⟩
  · intro hd; simp [kvPairFromResult, hb, hu, hd]
  · intro v hd; simp [kvPairFromResult, hb, hu, hd]

/-- Claim C8 witness: the empty-value record with a numeric payload type,
whose deserialiser rejects the empty string. -/
theorem c8_empty_value_decode_witness :
    kvPairFromResult jsonNatDeser emptyValueRecord = none :=
  (c8_empty_value_decode jsonNatDeser emptyValueRecord rfl).2.2.1 rfl

/-- Claim C9: a successful decode copies `Key`, `CreateIndex`, `ModifyIndex`,
`LockIndex`, `Flags` and `Session` verbatim from the wire record, and only
`Value` is transformed, through base64, UTF-8 and the deserialiser. -/
theorem c9_metadata_verbatim {T : Type} (deser : String → Option T) (r : KVResult)
    (p : KVPair T) (h : kvPairFromResult deser r = some p) :
    p.Key = r.Key ∧ p.CreateIndex = r.CreateIndex ∧ p.ModifyIndex = r.ModifyIndex ∧
    p.LockIndex = r.LockIndex ∧ p.Flags = r.Flags ∧ p.Session = r.Session ∧
    (∃ bytes decoded, base64Decode r.Value = some bytes ∧
      utf8Decode bytes = some decoded ∧ deser decoded = some p.Value) := by
  unfold kvPairFromResult at h
  split at h
  next hb => exact absurd h (by simp)
  next bytes hb =>
    split at h
    next hu => exact absurd h (by simp)
    next decoded hu =>
      split at h
      next hd => exact absurd h (by simp)
      next value hd =>
        obtain rfl := (Option.some.inj h).symm
        exact ⟨rfl, rfl, rfl, rfl, rfl, rfl, bytes, decoded, hb, hu, hd⟩

/-- Claim C9 witness: the sample record and its decoded entry. -/
theorem c9_metadata_verbatim_witness :
    samplePair.Key = sampleRecord.Key ∧
    samplePair.CreateIndex = sampleRecord.CreateIndex ∧
    samplePair.ModifyIndex = sampleRecord.ModifyIndex ∧
    samplePair.LockIndex = sampleRecord.LockIndex ∧
    samplePair.Flags = sampleRecord.Flags ∧
    samplePair.Session = sampleRecord.Session ∧
    (∃ bytes decoded, base64Decode sampleRecord.Value = some bytes ∧
      utf8Decode bytes = some decoded ∧ jsonNatDeser decoded = some samplePair.Value) :=
  c9_metadata_verbatim jsonNatDeser sampleRecord samplePair (by decide)

/-- Claim C10: the outcome of `get` on a successful transport response depends
only on the first record and the metadata: responses with the same first
record give the same result. -/
theorem c10_depends_on_first {T M : Type} (deser : String → Option T)
    (rs rs' : List KVResult) (meta : M) (h : rs.head? = rs'.head?) :
    kvGet deser (RustOutcome.ok (rs, meta)) = kvGet deser (RustOutcome.ok (rs', meta)) := by
  simp [kvGet, h]

/-- Claim C10 witness: appending a malformed second record does not change the
result of `get`. -/
theorem c10_depends_on_first_witness :
    kvGet jsonNatDeser (RustOutcome.ok ([sampleRecord, badRecord], (0 : Nat))) =
      kvGet jsonNatDeser (RustOutcome.ok ([sampleRecord], (0 : Nat))) :=
  c10_depends_on_first jsonNatDeser [sampleRecord, badRecord] [sampleRecord] 0 rfl

/-- Claim C5: for every serialiser/deserialiser pair that round-trips on a
value `v` (the serde contract for a serializable type), decoding a wire record
whose `Value` is the base64 encoding of the UTF-8 bytes of the serialisation
of `v` succeeds and yields a typed entry whose decoded value is `v` — the
encode-then-decode round-trip over the wire encoding is the identity. -/
theorem c5_wire_roundtrip {T : Type} (ser : T → String) (deser : String → Option T) (v : T)
    (hc : deser (ser v) = some v) (k : String) (ci mi li fl : Option Nat) (se : Option String) :
    kvPairFromResult deser
      { Key := k, CreateIndex := ci, ModifyIndex := mi, LockIndex := li, Flags := fl,
        Value := base64Encode (utf8Encode (ser v)), Session := se } =
      some { Key := k, CreateIndex := ci, ModifyIndex := mi, LockIndex := li, Flags := fl,
             Value := v, Session := se } := by
  have hb : base64Decode (base64Encode (utf8Encode (ser v))) = some (utf8Encode (ser v)) :=
    base64_decode_encode _ (utf8Encode_lt (ser v))
  have hu := utf8_decode_encode_string (ser v)
  simp [kvPairFromResult, hb, hu, hc]

/-- Claim C5 witness: the numeric codec at value 7. -/
theorem c5_wire_roundtrip_witness :
    kvPairFromResult jsonNatDeser
      { Key := "k", CreateIndex := none, ModifyIndex := none, LockIndex := none,
        Flags := none, Value := base64Encode (utf8Encode (jsonNatSer 7)), Session := none } =
      some { Key := "k", CreateIndex := none, ModifyIndex := none, LockIndex := none,
             Flags := none, Value := 7, Session := none } :=
  c5_wire_roundtrip jsonNatSer jsonNatDeser 7 (by decide) "k" none none none none none

end ConsulKV
